import Mathlib

/-!
Shallow embedding of the `fpl-rs` Fantasy Premier League API client
(`src/lib.rs`, `src/fpl_error.rs`, `src/models/bootstrap_static.rs`,
`src/models/fixture.rs`) together with theorems checking the repository's
specification against it.

Modelling choices:
* Rust `i64` is modelled as `Int` (no arithmetic is ever performed on these
  values by the client, so overflow is irrelevant).
* Rust `f64` payload fields are never read, compared or computed with by the
  client logic; they are carried opaquely as a bit pattern (`F64`).
* `serde_json::Value` payload fields are likewise never inspected; they are
  carried opaquely as their serialised text (`Value`).
* The HTTP transport and the serde decoder are external collaborators; a
  network round-trip is modelled by an `HttpOutcome` oracle (either the send
  failed, or a response with a status code and a body arrived), and the serde
  decoder by a function `String → Except String T` (error text on failure).
* `async fn f(&mut self, ...)` becomes a pure function taking the client
  state `Fpl` and returning `result × Fpl`; `async fn f(&self, ...)` takes
  the state but cannot return a modified one.
* A Rust `panic!` / `.expect(msg)` abort is a distinct outcome, modelled by
  the `FixtureResult.panicked` constructor; it is not an `Err` return.
-/

namespace FplRs

/-- Opaque carrier for `serde_json::Value` payload fields (`src/models/bootstrap_static.rs`).
The client logic never inspects these values; they are carried as serialised text. -/
structure Value where
  raw : String
  deriving DecidableEq, Inhabited

/-- Opaque carrier for Rust `f64` payload fields. The client logic never reads,
compares or computes with these values, so they are carried as an IEEE-754 bit
pattern. -/
structure F64 where
  bits : Nat
  deriving DecidableEq, Inhabited

/-- `ChipPlay` from `src/models/bootstrap_static.rs`. -/
structure ChipPlay where
  chip_name : String
  num_played : Int
  deriving DecidableEq, Inhabited

/-- `TopPlayerInfo` from `src/models/bootstrap_static.rs`. -/
structure TopPlayerInfo where
  id : Int
  points : Int
  deriving DecidableEq, Inhabited

/-- `Event` (a static gameweek summary) from `src/models/bootstrap_static.rs`. -/
structure Event where
  id : Int
  name : String
  deadline_time : String
  average_entry_score : Int
  finished : Bool
  data_checked : Bool
  highest_scoring_entry : Option Int
  deadline_time_epoch : Int
  deadline_time_game_offset : Int
  highest_score : Option Int
  is_previous : Bool
  is_current : Bool
  is_next : Bool
  cup_leagues_created : Bool
  h2h_ko_matches_created : Bool
  chip_plays : List ChipPlay
  most_selected : Option Int
  most_transferred_in : Option Int
  top_element : Option Int
  top_element_info : Option TopPlayerInfo
  transfers_made : Int
  most_captained : Option Int
  most_vice_captained : Option Int
  deriving DecidableEq, Inhabited

/-- `GameSettings` from `src/models/bootstrap_static.rs`. -/
structure GameSettings where
  league_join_private_max : Int
  league_join_public_max : Int
  league_max_size_public_classic : Int
  league_max_size_public_h2h : Int
  league_max_size_private_h2h : Int
  league_max_ko_rounds_private_h2h : Int
  league_prefix_public : String
  league_points_h2h_win : Int
  league_points_h2h_lose : Int
  league_points_h2h_draw : Int
  league_ko_first_instead_of_random : Bool
  cup_start_event_id : Value
  cup_stop_event_id : Value
  cup_qualifying_method : Value
  cup_type : Value
  squad_squadplay : Int
  squad_squadsize : Int
  squad_team_limit : Int
  squad_total_spend : Int
  ui_currency_multiplier : Int
  ui_use_special_shirts : Bool
  ui_special_shirt_exclusions : List Value
  stats_form_days : Int
  sys_vice_captain_enabled : Bool
  transfers_cap : Int
  transfers_sell_on_fee : F64
  league_h2h_tiebreak_stats : List String
  timezone : String
  deriving DecidableEq, Inhabited

/-- `Phase` from `src/models/bootstrap_static.rs`. -/
structure Phase where
  id : Int
  name : String
  start_event : Int
  stop_event : Int
  deriving DecidableEq, Inhabited

/-- `Team` from `src/models/bootstrap_static.rs`. -/
structure Team where
  code : Int
  draw : Int
  form : Value
  id : Int
  loss : Int
  name : String
  played : Int
  points : Int
  position : Int
  short_name : String
  strength : Int
  team_division : Value
  unavailable : Bool
  win : Int
  strength_overall_home : Int
  strength_overall_away : Int
  strength_attack_home : Int
  strength_attack_away : Int
  strength_defence_home : Int
  strength_defence_away : Int
  pulse_id : Int
  deriving DecidableEq, Inhabited

/-- `Player` from `src/models/bootstrap_static.rs`. -/
structure Player where
  chance_of_playing_next_round : Option Int
  chance_of_playing_this_round : Option Int
  code : Int
  cost_change_event : Int
  cost_change_event_fall : Int
  cost_change_start : Int
  cost_change_start_fall : Int
  dreamteam_count : Int
  element_type : Int
  ep_next : String
  ep_this : String
  event_points : Int
  first_name : String
  form : String
  id : Int
  in_dreamteam : Bool
  news : String
  news_added : Option String
  now_cost : Int
  photo : String
  points_per_game : String
  second_name : String
  selected_by_percent : String
  special : Bool
  squad_number : Value
  status : String
  team : Int
  team_code : Int
  total_points : Int
  transfers_in : Int
  transfers_in_event : Int
  transfers_out : Int
  transfers_out_event : Int
  value_form : String
  value_season : String
  web_name : String
  minutes : Int
  goals_scored : Int
  assists : Int
  clean_sheets : Int
  goals_conceded : Int
  own_goals : Int
  penalties_saved : Int
  penalties_missed : Int
  yellow_cards : Int
  red_cards : Int
  saves : Int
  bonus : Int
  bps : Int
  influence : String
  creativity : String
  threat : String
  ict_index : String
  starts : Int
  expected_goals : String
  expected_assists : String
  expected_goal_involvements : String
  expected_goals_conceded : String
  influence_rank : Int
  influence_rank_type : Int
  creativity_rank : Int
  creativity_rank_type : Int
  threat_rank : Int
  threat_rank_type : Int
  ict_index_rank : Int
  ict_index_rank_type : Int
  corners_and_indirect_freekicks_order : Option Int
  corners_and_indirect_freekicks_text : String
  direct_freekicks_order : Option Int
  direct_freekicks_text : String
  penalties_order : Option Int
  penalties_text : String
  expected_goals_per_90 : F64
  saves_per_90 : F64
  expected_assists_per_90 : F64
  expected_goal_involvements_per_90 : F64
  expected_goals_conceded_per_90 : F64
  goals_conceded_per_90 : F64
  now_cost_rank : Int
  now_cost_rank_type : Int
  form_rank : Int
  form_rank_type : Int
  points_per_game_rank : Int
  points_per_game_rank_type : Int
  selected_rank : Int
  selected_rank_type : Int
  starts_per_90 : F64
  clean_sheets_per_90 : F64
  deriving DecidableEq, Inhabited

/-- `pub type Players = Vec<Player>` from `src/models/bootstrap_static.rs`. -/
abbrev Players := List Player

/-- `PlayerStat` from `src/models/bootstrap_static.rs`. -/
structure PlayerStat where
  label : String
  name : String
  deriving DecidableEq, Inhabited

/-- `PlayerType` from `src/models/bootstrap_static.rs`. -/
structure PlayerType where
  id : Int
  plural_name : String
  plural_name_short : String
  singular_name : String
  singular_name_short : String
  squad_select : Int
  squad_min_play : Int
  squad_max_play : Int
  ui_shirt_specific : Bool
  sub_positions_locked : List Int
  element_count : Int
  deriving DecidableEq, Inhabited

/-- `BootstrapStatic` (the static reference snapshot) from `src/models/bootstrap_static.rs`. -/
structure BootstrapStatic where
  events : List Event
  game_settings : GameSettings
  phases : List Phase
  teams : List Team
  total_players : Int
  elements : Players
  element_stats : List PlayerStat
  element_types : List PlayerType
  deriving DecidableEq, Inhabited

/-- `A` (away-side stat entry) from `src/models/fixture.rs`. -/
structure A where
  value : Int
  element : Int
  deriving DecidableEq, Inhabited

/-- `H` (home-side stat entry) from `src/models/fixture.rs`. -/
structure H where
  value : Int
  element : Int
  deriving DecidableEq, Inhabited

/-- `Stat` from `src/models/fixture.rs`. -/
structure Stat where
  identifier : String
  a : List A
  h : List H
  deriving DecidableEq, Inhabited

/-- `Fixture` from `src/models/fixture.rs`. -/
structure Fixture where
  code : Int
  event : Option Int
  finished : Bool
  finished_provisional : Bool
  id : Int
  kickoff_time : Option String
  minutes : Int
  provisional_start_time : Bool
  started : Option Bool
  team_a : Int
  team_a_score : Option Int
  team_h : Int
  team_h_score : Option Int
  stats : List Stat
  team_h_difficulty : Int
  team_a_difficulty : Int
  pulse_id : Int
  deriving DecidableEq, Inhabited

/-- `pub type Fixtures = Vec<Fixture>` from `src/models/fixture.rs`. -/
abbrev Fixtures := List Fixture

/-- `FplError` from `src/fpl_error.rs`: an untagged wrapper around one message
string (`FplError { msg: String }`; `From<&str>` copies the text verbatim). -/
structure FplError where
  msg : String
  deriving DecidableEq, Inhabited

/-- Equality of `Except` values is decidable componentwise (used only to let
witnesses evaluate concrete runs of the client). -/
instance {ε α : Type} [DecidableEq ε] [DecidableEq α] : DecidableEq (Except ε α) := fun x y =>
  match x, y with
  | Except.error a, Except.error b =>
      if h : a = b then Decidable.isTrue (by rw [h]) else Decidable.isFalse (by simp [h])
  | Except.error _, Except.ok _ => Decidable.isFalse (by simp)
  | Except.ok _, Except.error _ => Decidable.isFalse (by simp)
  | Except.ok a, Except.ok b =>
      if h : a = b then Decidable.isTrue (by rw [h]) else Decidable.isFalse (by simp [h])

/-- Outcome of one HTTP round-trip at the transport boundary:
either `self.http_client.get(url).send().await` returned `Err` (no response),
or a response with a status code and a body arrived. -/
inductive HttpOutcome where
  | sendError (err : String)
  | response (status : Nat) (body : String)
  deriving DecidableEq, Inhabited

/-- The `Fpl` client struct from `src/lib.rs`. The `http_client` handle is an
external collaborator with no observable state and is not carried. -/
structure Fpl where
  bootstrap_static : Option BootstrapStatic
  deriving DecidableEq, Inhabited

/-- `Fpl::new` from `src/lib.rs`: `bootstrap_static` starts out `None`. -/
def Fpl.new : Fpl := { bootstrap_static := none }

/-- `Fpl::fetch` from `src/lib.rs` (lines 87-115): one GET request, then a
three-way classification. A send error is reported first; then a non-`OK`
(non-200) status; then a decode error; a decoded value is returned untouched.
`decode` is the serde collaborator; `toString status` stands for the status
code's display text. -/
def fetch {T : Type} (url : String) (net : HttpOutcome)
    (decode : String → Except String T) : Except FplError T :=
  let error_message := "Failed when making request to: " ++ url
  match net with
  | .sendError err =>
      Except.error (FplError.mk (error_message ++ " with this error: " ++ err))
  | .response status body =>
      if status = 200 then
        match decode body with
        | .ok parsed => Except.ok parsed
        | .error err =>
            Except.error (FplError.mk (error_message ++ " with this error: " ++ err))
      else
        Except.error
          (FplError.mk (error_message ++ " with this status code: " ++ toString status))

/-- The static-reference endpoint (`Fpl::get_bootstrap_static`). -/
def bootstrapStaticUrl : String := "https://fantasy.premierleague.com/api/bootstrap-static/"

/-- The unscoped all-fixtures endpoint (`Fpl::get_fixtures`). -/
def fixturesUrl : String := "https://fantasy.premierleague.com/api/fixtures/"

/-- The gameweek-scoped fixtures endpoint (`Fpl::get_gameweek_fixtures`). -/
def gameweekFixturesUrl (gameweek_id : Int) : String :=
  "https://fantasy.premierleague.com/api/fixtures/?event=" ++ toString gameweek_id

/-- `Fpl::get_bootstrap_static` from `src/lib.rs` (lines 1294-1303): return the
stored snapshot if populated; otherwise fetch, store on success, and return.
On a fetch failure the `?` operator returns before the store, leaving the
state untouched. -/
def get_bootstrap_static (s : Fpl) (net : HttpOutcome)
    (decode : String → Except String BootstrapStatic) :
    Except FplError BootstrapStatic × Fpl :=
  match s.bootstrap_static with
  | some b => (Except.ok b, s)
  | none =>
      match fetch bootstrapStaticUrl net decode with
      | .ok bootstrap_static =>
          (Except.ok bootstrap_static, { s with bootstrap_static := some bootstrap_static })
      | .error e => (Except.error e, s)

/-- `Fpl::get_team` from `src/lib.rs` (lines 794-810): obtain the snapshot
(stored, or else via `get_bootstrap_static`), filter teams by id, return the
first match (`.first().cloned()`). -/
def get_team (s : Fpl) (team_id : Int) (net : HttpOutcome)
    (decode : String → Except String BootstrapStatic) :
    Except FplError (Option Team) × Fpl :=
  match (match s.bootstrap_static with
         | some bootstrap_static => (Except.ok bootstrap_static, s)
         | none => get_bootstrap_static s net decode) with
  | (.error e, s') => (Except.error e, s')
  | (.ok bootstrap_static, s') =>
      (Except.ok ((bootstrap_static.teams.filter (fun team => team_id == team.id)).head?), s')

/-- `Fpl::get_teams` from `src/lib.rs` (lines 873-890): an empty id list
returns the whole `teams` collection; otherwise filter by membership. -/
def get_teams (s : Fpl) (team_ids : List Int) (net : HttpOutcome)
    (decode : String → Except String BootstrapStatic) :
    Except FplError (List Team) × Fpl :=
  match (match s.bootstrap_static with
         | some bootstrap_static => (Except.ok bootstrap_static, s)
         | none => get_bootstrap_static s net decode) with
  | (.error e, s') => (Except.error e, s')
  | (.ok bootstrap_static, s') =>
      if team_ids.isEmpty then (Except.ok bootstrap_static.teams, s')
      else
        (Except.ok (bootstrap_static.teams.filter (fun team => team_ids.contains team.id)), s')

/-- `Fpl::get_all_teams` from `src/lib.rs` (lines 945-953). -/
def get_all_teams (s : Fpl) (net : HttpOutcome)
    (decode : String → Except String BootstrapStatic) :
    Except FplError (List Team) × Fpl :=
  match s.bootstrap_static with
  | some bootstrap_static => (Except.ok bootstrap_static.teams, s)
  | none =>
      match get_bootstrap_static s net decode with
      | (.ok bootstrap_static, s') => (Except.ok bootstrap_static.teams, s')
      | (.error e, s') => (Except.error e, s')

/-- `Fpl::get_player` from `src/lib.rs` (lines 1019-1035). -/
def get_player (s : Fpl) (player_id : Int) (net : HttpOutcome)
    (decode : String → Except String BootstrapStatic) :
    Except FplError (Option Player) × Fpl :=
  match (match s.bootstrap_static with
         | some bootstrap_static => (Except.ok bootstrap_static, s)
         | none => get_bootstrap_static s net decode) with
  | (.error e, s') => (Except.error e, s')
  | (.ok bootstrap_static, s') =>
      (Except.ok
        ((bootstrap_static.elements.filter (fun element => player_id == element.id)).head?), s')

/-- `Fpl::get_players` from `src/lib.rs` (lines 1096-1111): filter `elements`
by membership of `player_ids`. Unlike `get_teams`, there is no special case
for an empty id list. -/
def get_players (s : Fpl) (player_ids : List Int) (net : HttpOutcome)
    (decode : String → Except String BootstrapStatic) :
    Except FplError Players × Fpl :=
  match (match s.bootstrap_static with
         | some bootstrap_static => (Except.ok bootstrap_static, s)
         | none => get_bootstrap_static s net decode) with
  | (.error e, s') => (Except.error e, s')
  | (.ok bootstrap_static, s') =>
      (Except.ok
        (bootstrap_static.elements.filter (fun element => player_ids.contains element.id)), s')

/-- `Fpl::get_all_players` from `src/lib.rs` (lines 1166-1174). -/
def get_all_players (s : Fpl) (net : HttpOutcome)
    (decode : String → Except String BootstrapStatic) :
    Except FplError Players × Fpl :=
  match s.bootstrap_static with
  | some bootstrap_static => (Except.ok bootstrap_static.elements, s)
  | none =>
      match get_bootstrap_static s net decode with
      | (.ok bootstrap_static, s') => (Except.ok bootstrap_static.elements, s')
      | (.error e, s') => (Except.error e, s')

/-- `Fpl::get_static_gameweeks` from `src/lib.rs` (lines 1229-1237). -/
def get_static_gameweeks (s : Fpl) (net : HttpOutcome)
    (decode : String → Except String BootstrapStatic) :
    Except FplError (List Event) × Fpl :=
  match s.bootstrap_static with
  | some bootstrap_static => (Except.ok bootstrap_static.events, s)
  | none =>
      match get_bootstrap_static s net decode with
      | (.ok bootstrap_static, s') => (Except.ok bootstrap_static.events, s')
      | (.error e, s') => (Except.error e, s')

/-- `Fpl::get_static_gameweek` from `src/lib.rs` (lines 446-457):
`get_static_gameweeks` (propagating failure with `?`), then filter by id and
return the first match. -/
def get_static_gameweek (s : Fpl) (gameweek_id : Int) (net : HttpOutcome)
    (decode : String → Except String BootstrapStatic) :
    Except FplError (Option Event) × Fpl :=
  match get_static_gameweeks s net decode with
  | (.error e, s') => (Except.error e, s')
  | (.ok all_gameweeks, s') =>
      (Except.ok ((all_gameweeks.filter (fun gameweek => gameweek_id == gameweek.id)).head?), s')

/-- `Fpl::get_fixtures` from `src/lib.rs` (lines 232-235): takes `&self` and
only performs one fetch; the state cannot change. -/
def get_fixtures (_s : Fpl) (net : HttpOutcome)
    (decode : String → Except String Fixtures) : Except FplError Fixtures :=
  fetch fixturesUrl net decode

/-- `Fpl::get_gameweek_fixtures` from `src/lib.rs` (lines 295-301): takes
`&self` and only performs one fetch. -/
def get_gameweek_fixtures (_s : Fpl) (gameweek_id : Int) (net : HttpOutcome)
    (decode : String → Except String Fixtures) : Except FplError Fixtures :=
  fetch (gameweekFixturesUrl gameweek_id) net decode

/-- Outcome of `Fpl::get_fixture`: a returned fixture, a returned `FplError`,
or an abort of the whole call via `.expect(msg)` (a Rust panic, which is not
an `Err` return). -/
inductive FixtureResult where
  | ok (f : Fixture)
  | err (e : FplError)
  | panicked (msg : String)
  deriving DecidableEq

/-- `Fpl::get_fixture` from `src/lib.rs` (lines 361-383): fetch all fixtures
(`net1`), take the first one with the requested id — `.first().expect(...)`
panics when the filter result is empty, and `.event.expect(...)` panics when
that fixture has no gameweek reference — then fetch that gameweek's fixtures
(`net2`) and return the first one with the requested id, or `Err` when there
is none. The function never touches `self.bootstrap_static`. -/
def get_fixture (s : Fpl) (fixture_id : Int) (net1 net2 : HttpOutcome)
    (decode : String → Except String Fixtures) : FixtureResult × Fpl :=
  match get_fixtures s net1 decode with
  | .error e => (FixtureResult.err e, s)
  | .ok all_fixtures =>
      match (all_fixtures.filter (fun fixture => fixture.id == fixture_id)).head? with
      | none => (FixtureResult.panicked ("Failed when parsing fixtures response."), s)
      | some first_fixture =>
          match first_fixture.event with
          | none => (FixtureResult.panicked ("Failed when parsing fixtures response."), s)
          | some gameweek_id =>
              match get_gameweek_fixtures s gameweek_id net2 decode with
              | .error e => (FixtureResult.err e, s)
              | .ok gameweek_fixtures =>
                  match (gameweek_fixtures.filter (fun fixture => fixture.id == fixture_id)).head? with
                  | some f => (FixtureResult.ok f, s)
                  | none =>
                      (FixtureResult.err (FplError.mk ("Failed when parsing fixtures response.")), s)

/-- Spec-side notion used by the error-reporting claims: a message string
carries a piece of text when that text occurs in it verbatim. -/
def containsText (msg t : String) : Prop := ∃ pre post, msg = pre ++ t ++ post

/-! Concrete data used by witnesses and counterexamples. All payload fields
other than the ones a scenario fixes are Lean defaults. -/

/-- A team record with a given id. -/
def teamWith (i : Int) : Team := { (default : Team) with id := i }

/-- A player record with a given id. -/
def playerWith (i : Int) : Player := { (default : Player) with id := i }

/-- A gameweek summary record with a given id. -/
def eventWith (i : Int) : Event := { (default : Event) with id := i }

/-- A fixture record with a given id and gameweek reference. -/
def fixtureWith (i : Int) (ev : Option Int) : Fixture :=
  { (default : Fixture) with id := i, event := ev }

/-- A small populated snapshot: two teams, one player, one gameweek summary. -/
def demoSnapshot : BootstrapStatic :=
  { (default : BootstrapStatic) with
      teams := [teamWith 1, teamWith 2]
      elements := [playerWith 7]
      events := [eventWith 3] }

/-- A client already holding `demoSnapshot`. -/
def demoClient : Fpl := { bootstrap_static := some demoSnapshot }

/-- A transport oracle on which any send attempt fails. -/
def demoNetDown : HttpOutcome := HttpOutcome.sendError ("no network")

/-- A snapshot decoder that always fails: if a claim's run returns data under
this decoder and oracle, that data cannot have come from a fetch. -/
def demoNoDecode : String → Except String BootstrapStatic :=
  fun _ => Except.error ("no decode")

/-- A successful response carrying the body tag of the first fixtures call. -/
def demoNetBody1 : HttpOutcome := HttpOutcome.response 200 ("body1")

/-- A successful response carrying the body tag of the second fixtures call. -/
def demoNetBody2 : HttpOutcome := HttpOutcome.response 200 ("body2")

/-- A successful response for the static-snapshot endpoint. -/
def demoNetBodyStatic : HttpOutcome := HttpOutcome.response 200 ("static body")

/-- A decoder producing `demoSnapshot` from any body. -/
def demoDecodeStatic : String → Except String BootstrapStatic :=
  fun _ => Except.ok demoSnapshot

/-- A decoder for `Nat` payloads used to exercise `fetch` standalone. -/
def demoDecodeNat : String → Except String Nat :=
  fun b => if b = "goodbody" then Except.ok 3 else Except.error ("parse failure")

/-- A fixtures decoder returning an empty fixture list for every call. -/
def demoDecodeNoFixtures : String → Except String Fixtures := fun _ => Except.ok []

/-- A fixtures decoder returning one fixture that has no gameweek reference. -/
def demoDecodeEventlessFixture : String → Except String Fixtures :=
  fun _ => Except.ok [fixtureWith 1 none]

/-- A fixtures decoder whose unscoped list (first body) holds fixture 1 in
gameweek 5, but whose gameweek-scoped list (any other body) is empty. -/
def demoDecodeVanishing : String → Except String Fixtures :=
  fun b => if b = "body1" then Except.ok [fixtureWith 1 (some 5)] else Except.ok []

/-- A fixtures decoder returning fixture 1 in gameweek 5 for every call. -/
def demoDecodeStable : String → Except String Fixtures :=
  fun _ => Except.ok [fixtureWith 1 (some 5)]

/-! Helper lemmas about list filtering, shared by several claims. -/

/-- Taking the first element of a filtered list is finding the first element
satisfying the predicate: the meaning of the `.filter(..).first()` idiom used
throughout `src/lib.rs`. -/
theorem head_filter_eq_find {α : Type} (p : α → Bool) (l : List α) :
    (l.filter p).head? = l.find? p := by
  induction l with
  | nil => rfl
  | cons x t ih => cases hp : p x <;> simp [List.filter_cons, List.find?_cons, hp, ih]

/-- Filtering a list by an id over a two-element id list keeps as many elements
as there are occurrences of the two ids among the mapped-out ids. -/
theorem length_filter_pair {α : Type} (f : α → Int) (a a' : Int) (hne : a ≠ a') :
    ∀ l : List α, (l.filter (fun x => [a, a'].contains (f x))).length
      = (l.map f).count a + (l.map f).count a' := by
  intro l
  induction l with
  | nil => rfl
  | cons x t ih =>
      by_cases hxa : f x = a
      · simp [List.filter_cons, List.contains, List.count_cons, hxa, hne,
          Ne.symm hne] at ih ⊢
        omega
      · by_cases hxa' : f x = a'
        · simp [List.filter_cons, List.contains, List.count_cons, hxa, hxa',
            Ne.symm hne] at ih ⊢
          omega
        · simp [List.filter_cons, List.contains, List.count_cons, hxa, hxa'] at ih ⊢
          omega

/-- C2: every call to `fetch` is classified into exactly one of three failure
kinds, checked in priority order — a transport failure when the request could
not be sent (reported first, whatever the status or decoder would say), a
status failure when a response arrived with a non-success (non-200) status
code, and a decode failure when the status was the success code but the body
could not be parsed — and on success the decoded value is returned unchanged,
with no further validation. -/
theorem fetch_three_way_classification {T : Type} (url e body body2 de : String)
    (st : Nat) (v : T) (decode : String → Except String T)
    (hst : st ≠ 200) (hdec : decode body = Except.error de)
    (hdec2 : decode body2 = Except.ok v) :
    fetch url (HttpOutcome.sendError e) decode
      = Except.error (FplError.mk
          ("Failed when making request to: " ++ url ++ " with this error: " ++ e))
  ∧ fetch url (HttpOutcome.response st body) decode
      = Except.error (FplError.mk
          ("Failed when making request to: " ++ url ++ " with this status code: "
            ++ toString st))
  ∧ fetch url (HttpOutcome.response 200 body) decode
      = Except.error (FplError.mk
          ("Failed when making request to: " ++ url ++ " with this error: " ++ de))
  ∧ fetch url (HttpOutcome.response 200 body2) decode = Except.ok v := by
  refine ⟨rfl, ?_, ?_, ?_⟩
  · simp [fetch, hst]
  · simp [fetch, hdec]
  · simp [fetch, hdec2]

/-- Witness: the fetch classification theorem applied at concrete inputs. -/
theorem fetch_three_way_classification_witness :
    ((404 : Nat) ≠ 200)
  ∧ demoDecodeNat ("badbody") = Except.error ("parse failure")
  ∧ demoDecodeNat ("goodbody") = Except.ok 3
  ∧ (fetch ("u") (HttpOutcome.sendError ("boom")) demoDecodeNat
      = Except.error (FplError.mk
          ("Failed when making request to: " ++ "u" ++ " with this error: " ++ "boom"))
    ∧ fetch ("u") (HttpOutcome.response 404 ("badbody")) demoDecodeNat
      = Except.error (FplError.mk
          ("Failed when making request to: " ++ "u" ++ " with this status code: "
            ++ toString (404 : Nat)))
    ∧ fetch ("u") (HttpOutcome.response 200 ("badbody")) demoDecodeNat
      = Except.error (FplError.mk
          ("Failed when making request to: " ++ "u" ++ " with this error: "
            ++ "parse failure"))
    ∧ fetch ("u") (HttpOutcome.response 200 ("goodbody")) demoDecodeNat = Except.ok 3) :=
  ⟨by decide, by decide, by decide,
    fetch_three_way_classification ("u") ("boom") ("badbody") ("goodbody")
      ("parse failure") 404 3 demoDecodeNat (by decide) (by decide) (by decide)⟩

/-- C10: `get_fixture` neither reads nor writes the client's
`bootstrap_static` slot: the state coming back is exactly the state passed in
(success, error and panic cases alike), and the outcome is the same whatever
snapshot the client holds. -/
theorem get_fixture_preserves_snapshot_slot (s s' : Fpl) (fixture_id : Int)
    (net1 net2 : HttpOutcome) (decode : String → Except String Fixtures) :
    (get_fixture s fixture_id net1 net2 decode).2 = s
  ∧ (get_fixture s fixture_id net1 net2 decode).1
      = (get_fixture s' fixture_id net1 net2 decode).1 := by
  rcases hfe : fetch fixturesUrl net1 decode with e | afx
  · simp [get_fixture, get_fixtures, hfe]
  · rcases hh : (afx.filter (fun fixture => fixture.id == fixture_id)).head? with _ | fx0
    · simp [get_fixture, get_fixtures, hfe, hh]
    · rcases hev : fx0.event with _ | gw
      · simp [get_fixture, get_fixtures, hfe, hh, hev]
      · rcases hg : fetch (gameweekFixturesUrl gw) net2 decode with e2 | gfx
        · simp [get_fixture, get_fixtures, get_gameweek_fixtures, hfe, hh, hev, hg]
        · rcases hh2 : (gfx.filter (fun fixture => fixture.id == fixture_id)).head?
            with _ | f
          · simp [get_fixture, get_fixtures, get_gameweek_fixtures, hfe, hh, hev,
              hg, hh2]
          · simp [get_fixture, get_fixtures, get_gameweek_fixtures, hfe, hh, hev,
              hg, hh2]

/-- C1: once the client holds a populated snapshot, `get_bootstrap_static` and
every snapshot-backed accessor return data derived from that same stored
snapshot and leave the state untouched — for every transport oracle and
decoder, hence with no further fetch — and on the first populating call the
fetched snapshot is stored, so that later accessor calls observe exactly its
data. -/
theorem snapshot_fetched_at_most_once (s s0 : Fpl) (b bs : BootstrapStatic)
    (net net2 net3 : HttpOutcome)
    (d d2 d3 : String → Except String BootstrapStatic) (i : Int) (ids : List Int)
    (h : s.bootstrap_static = some b) (h0 : s0.bootstrap_static = none)
    (hf : fetch bootstrapStaticUrl net2 d2 = Except.ok bs) :
    get_bootstrap_static s net d = (Except.ok b, s)
  ∧ get_team s i net d
      = (Except.ok ((b.teams.filter (fun team => i == team.id)).head?), s)
  ∧ get_teams s ids net d
      = (if ids.isEmpty then (Except.ok b.teams, s)
          else (Except.ok (b.teams.filter (fun team => ids.contains team.id)), s))
  ∧ get_all_teams s net d = (Except.ok b.teams, s)
  ∧ get_player s i net d
      = (Except.ok ((b.elements.filter (fun element => i == element.id)).head?), s)
  ∧ get_players s ids net d
      = (Except.ok (b.elements.filter (fun element => ids.contains element.id)), s)
  ∧ get_all_players s net d = (Except.ok b.elements, s)
  ∧ get_static_gameweeks s net d = (Except.ok b.events, s)
  ∧ get_static_gameweek s i net d
      = (Except.ok ((b.events.filter (fun gameweek => i == gameweek.id)).head?), s)
  ∧ get_bootstrap_static s0 net2 d2 = (Except.ok bs, { bootstrap_static := some bs })
  ∧ get_all_teams { bootstrap_static := some bs } net3 d3
      = (Except.ok bs.teams, { bootstrap_static := some bs }) := by
  refine ⟨?_, ?_, ?_, ?_, ?_, ?_, ?_, ?_, ?_, ?_, ?_⟩ <;>
    simp [get_bootstrap_static, get_team, get_teams, get_all_teams, get_player,
      get_players, get_all_players, get_static_gameweeks, get_static_gameweek,
      h, h0, hf]

/-- Witness: the memoization theorem applied to a concrete populated client, a
dead transport, a never-succeeding decoder, and a concrete populating call. -/
theorem snapshot_fetched_at_most_once_witness :
    demoClient.bootstrap_static = some demoSnapshot
  ∧ Fpl.new.bootstrap_static = none
  ∧ fetch bootstrapStaticUrl demoNetBodyStatic demoDecodeStatic = Except.ok demoSnapshot
  ∧ (get_bootstrap_static demoClient demoNetDown demoNoDecode
        = (Except.ok demoSnapshot, demoClient)
    ∧ get_team demoClient 2 demoNetDown demoNoDecode
        = (Except.ok ((demoSnapshot.teams.filter (fun team => 2 == team.id)).head?),
            demoClient)
    ∧ get_teams demoClient [1] demoNetDown demoNoDecode
        = (if ([1] : List Int).isEmpty then (Except.ok demoSnapshot.teams, demoClient)
            else (Except.ok (demoSnapshot.teams.filter
              (fun team => ([1] : List Int).contains team.id)), demoClient))
    ∧ get_all_teams demoClient demoNetDown demoNoDecode
        = (Except.ok demoSnapshot.teams, demoClient)
    ∧ get_player demoClient 2 demoNetDown demoNoDecode
        = (Except.ok ((demoSnapshot.elements.filter
            (fun element => 2 == element.id)).head?), demoClient)
    ∧ get_players demoClient [1] demoNetDown demoNoDecode
        = (Except.ok (demoSnapshot.elements.filter
            (fun element => ([1] : List Int).contains element.id)), demoClient)
    ∧ get_all_players demoClient demoNetDown demoNoDecode
        = (Except.ok demoSnapshot.elements, demoClient)
    ∧ get_static_gameweeks demoClient demoNetDown demoNoDecode
        = (Except.ok demoSnapshot.events, demoClient)
    ∧ get_static_gameweek demoClient 2 demoNetDown demoNoDecode
        = (Except.ok ((demoSnapshot.events.filter
            (fun gameweek => 2 == gameweek.id)).head?), demoClient)
    ∧ get_bootstrap_static Fpl.new demoNetBodyStatic demoDecodeStatic
        = (Except.ok demoSnapshot, { bootstrap_static := some demoSnapshot })
    ∧ get_all_teams { bootstrap_static := some demoSnapshot } demoNetDown demoNoDecode
        = (Except.ok demoSnapshot.teams, { bootstrap_static := some demoSnapshot })) :=
  ⟨rfl, rfl, by rfl,
    snapshot_fetched_at_most_once demoClient Fpl.new demoSnapshot demoSnapshot
      demoNetDown demoNetBodyStatic demoNetDown demoNoDecode demoDecodeStatic
      demoNoDecode 2 [1] rfl rfl (by rfl)⟩

/-- C6: when the client's snapshot slot is empty and the static fetch fails,
`get_bootstrap_static` returns that failure to the caller and the slot stays
empty (never partially populated), so a later call with a working transport
retries the fetch and succeeds — there is no poisoned state. -/
theorem failed_fetch_leaves_snapshot_empty (s : Fpl) (net net2 : HttpOutcome)
    (d d2 : String → Except String BootstrapStatic) (e : FplError)
    (bs2 : BootstrapStatic)
    (h0 : s.bootstrap_static = none)
    (hf : fetch bootstrapStaticUrl net d = Except.error e)
    (hs2 : fetch bootstrapStaticUrl net2 d2 = Except.ok bs2) :
    get_bootstrap_static s net d = (Except.error e, s)
  ∧ (get_bootstrap_static s net d).2.bootstrap_static = none
  ∧ get_bootstrap_static (get_bootstrap_static s net d).2 net2 d2
      = (Except.ok bs2, { bootstrap_static := some bs2 }) := by
  refine ⟨?_, ?_, ?_⟩ <;> simp [get_bootstrap_static, h0, hf, hs2]

/-- Witness: the failure-then-retry theorem at a concrete fresh client, with a
dead transport first and a working one second. -/
theorem failed_fetch_leaves_snapshot_empty_witness :
    Fpl.new.bootstrap_static = none
  ∧ fetch bootstrapStaticUrl demoNetDown demoNoDecode
      = Except.error (FplError.mk
          ("Failed when making request to: " ++ bootstrapStaticUrl
            ++ " with this error: " ++ "no network"))
  ∧ fetch bootstrapStaticUrl demoNetBodyStatic demoDecodeStatic = Except.ok demoSnapshot
  ∧ (get_bootstrap_static Fpl.new demoNetDown demoNoDecode
        = (Except.error (FplError.mk
            ("Failed when making request to: " ++ bootstrapStaticUrl
              ++ " with this error: " ++ "no network")), Fpl.new)
    ∧ (get_bootstrap_static Fpl.new demoNetDown demoNoDecode).2.bootstrap_static = none
    ∧ get_bootstrap_static
          (get_bootstrap_static Fpl.new demoNetDown demoNoDecode).2
          demoNetBodyStatic demoDecodeStatic
        = (Except.ok demoSnapshot, { bootstrap_static := some demoSnapshot })) :=
  ⟨rfl, by rfl, by rfl,
    failed_fetch_leaves_snapshot_empty Fpl.new demoNetDown demoNetBodyStatic
      demoNoDecode demoDecodeStatic
      (FplError.mk ("Failed when making request to: " ++ bootstrapStaticUrl
        ++ " with this error: " ++ "no network"))
      demoSnapshot rfl (by rfl) (by rfl)⟩

/-- C7: with a populated snapshot, each get-by-id accessor returns the first
record in snapshot order whose id equals the argument (`List.find?`), and when
no record matches it returns the explicit not-found result `Ok(None)` — never
an error. -/
theorem get_by_id_first_match (s : Fpl) (b : BootstrapStatic) (net : HttpOutcome)
    (d : String → Except String BootstrapStatic) (i : Int)
    (h : s.bootstrap_static = some b) :
    get_team s i net d = (Except.ok (b.teams.find? (fun team => i == team.id)), s)
  ∧ get_player s i net d
      = (Except.ok (b.elements.find? (fun element => i == element.id)), s)
  ∧ get_static_gameweek s i net d
      = (Except.ok (b.events.find? (fun gameweek => i == gameweek.id)), s)
  ∧ ((∀ team ∈ b.teams, team.id ≠ i) → get_team s i net d = (Except.ok none, s))
  ∧ ((∀ element ∈ b.elements, element.id ≠ i)
      → get_player s i net d = (Except.ok none, s))
  ∧ ((∀ gameweek ∈ b.events, gameweek.id ≠ i)
      → get_static_gameweek s i net d = (Except.ok none, s)) := by
  have ht : get_team s i net d
      = (Except.ok (b.teams.find? (fun team => i == team.id)), s) := by
    simp [get_team, h, head_filter_eq_find]
  have hp : get_player s i net d
      = (Except.ok (b.elements.find? (fun element => i == element.id)), s) := by
    simp [get_player, h, head_filter_eq_find]
  have hg : get_static_gameweek s i net d
      = (Except.ok (b.events.find? (fun gameweek => i == gameweek.id)), s) := by
    simp [get_static_gameweek, get_static_gameweeks, h, head_filter_eq_find]
  refine ⟨ht, hp, hg, ?_, ?_, ?_⟩
  · intro hnone
    rw [ht, List.find?_eq_none.mpr]
    intro x hx
    simpa using Ne.symm (hnone x hx)
  · intro hnone
    rw [hp, List.find?_eq_none.mpr]
    intro x hx
    simpa using Ne.symm (hnone x hx)
  · intro hnone
    rw [hg, List.find?_eq_none.mpr]
    intro x hx
    simpa using Ne.symm (hnone x hx)

/-- Witness: get-by-id at a concrete snapshot, both for a present id and for
an absent one. -/
theorem get_by_id_first_match_witness :
    demoClient.bootstrap_static = some demoSnapshot
  ∧ (∀ team ∈ demoSnapshot.teams, team.id ≠ 5)
  ∧ get_team demoClient 2 demoNetDown demoNoDecode
      = (Except.ok (some (teamWith 2)), demoClient)
  ∧ get_team demoClient 5 demoNetDown demoNoDecode = (Except.ok none, demoClient)
  ∧ get_player demoClient 7 demoNetDown demoNoDecode
      = (Except.ok (some (playerWith 7)), demoClient)
  ∧ get_static_gameweek demoClient 3 demoNetDown demoNoDecode
      = (Except.ok (some (eventWith 3)), demoClient) := by
  have h2 := get_by_id_first_match demoClient demoSnapshot demoNetDown demoNoDecode 2 rfl
  have h5 := get_by_id_first_match demoClient demoSnapshot demoNetDown demoNoDecode 5 rfl
  have h7 := get_by_id_first_match demoClient demoSnapshot demoNetDown demoNoDecode 7 rfl
  have h3 := get_by_id_first_match demoClient demoSnapshot demoNetDown demoNoDecode 3 rfl
  refine ⟨rfl, by decide, ?_, ?_, ?_, ?_⟩
  · exact h2.1.trans (by decide)
  · exact (h5.2.2.2.1 (by decide))
  · exact h7.2.1.trans (by decide)
  · exact h3.2.2.1.trans (by decide)

/-- C8: with a populated snapshot and a non-empty id list, `get_teams` and
`get_players` return exactly the records whose id is a member of the list, in
snapshot order, omitting ids with no match, never failing on a missing id;
in particular, when the snapshot's team ids are duplicate-free, a request for
two distinct present ids returns exactly the two records with those ids. -/
theorem get_by_ids_membership_filter (s : Fpl) (b : BootstrapStatic)
    (net : HttpOutcome) (d : String → Except String BootstrapStatic)
    (ids : List Int) (a a' : Int)
    (h : s.bootstrap_static = some b) (hids : ids ≠ []) :
    get_teams s ids net d
      = (Except.ok (b.teams.filter (fun team => ids.contains team.id)), s)
  ∧ get_players s ids net d
      = (Except.ok (b.elements.filter (fun element => ids.contains element.id)), s)
  ∧ ((b.teams.map Team.id).Nodup → a ≠ a' → a ∈ b.teams.map Team.id →
      a' ∈ b.teams.map Team.id →
      ∃ L, get_teams s [a, a'] net d = (Except.ok L, s)
        ∧ L.length = 2
        ∧ (∀ team, team ∈ L ↔ team ∈ b.teams ∧ (team.id = a ∨ team.id = a'))) := by
  have hne : ids.isEmpty = false := by
    cases ids with
    | nil => exact absurd rfl hids
    | cons x xs => rfl
  refine ⟨?_, ?_, ?_⟩
  · simp [get_teams, h, hne]
  · simp [get_players, h]
  · intro hnd hne' ha ha'
    refine ⟨b.teams.filter (fun team => ([a, a'] : List Int).contains team.id),
      ?_, ?_, ?_⟩
    · simp [get_teams, h]
    · rw [length_filter_pair Team.id a a' hne' b.teams,
        List.count_eq_one_of_mem hnd ha, List.count_eq_one_of_mem hnd ha']
    · intro team
      simp [List.mem_filter, List.contains]

/-- Witness: get-by-ids at the concrete snapshot; `[1, 2]` selects both teams
and no player (both team ids present, no player id present — no error), and
the two distinct present team ids come back as exactly two records. -/
theorem get_by_ids_membership_filter_witness :
    demoClient.bootstrap_static = some demoSnapshot
  ∧ ([1, 2] : List Int) ≠ []
  ∧ (demoSnapshot.teams.map Team.id).Nodup
  ∧ (1 : Int) ≠ 2
  ∧ (1 : Int) ∈ demoSnapshot.teams.map Team.id
  ∧ (2 : Int) ∈ demoSnapshot.teams.map Team.id
  ∧ get_teams demoClient [1, 2] demoNetDown demoNoDecode
      = (Except.ok [teamWith 1, teamWith 2], demoClient)
  ∧ get_players demoClient [1, 2] demoNetDown demoNoDecode
      = (Except.ok [], demoClient)
  ∧ (get_teams demoClient [1, 2] demoNetDown demoNoDecode).1
      = Except.ok [teamWith 1, teamWith 2] := by
  have h := get_by_ids_membership_filter demoClient demoSnapshot demoNetDown
    demoNoDecode [1, 2] 1 2 rfl (by decide)
  have e1 : get_teams demoClient [1, 2] demoNetDown demoNoDecode
      = (Except.ok [teamWith 1, teamWith 2], demoClient) := h.1.trans (by decide)
  exact ⟨rfl, by decide, by decide, by decide, by decide, by decide,
    e1, h.2.1.trans (by decide), congrArg Prod.fst e1⟩

/-- C4 counterexample: on a populated snapshot holding exactly one player, an
empty id list makes `get_players` return the empty list while
`get_all_players` returns that player, so the claimed get-by-ids/get-all
equivalence fails for players (it does hold for teams). -/
theorem get_players_empty_ids_counterexample :
    get_players demoClient [] demoNetDown demoNoDecode = (Except.ok [], demoClient)
  ∧ get_all_players demoClient demoNetDown demoNoDecode
      = (Except.ok [playerWith 7], demoClient)
  ∧ (get_players demoClient [] demoNetDown demoNoDecode).1
      ≠ (get_all_players demoClient demoNetDown demoNoDecode).1 :=
  ⟨by decide, by decide, by decide⟩

/-- C4 amended: with a populated snapshot, `get_teams([])` returns the same
records as `get_all_teams()`, but `get_players([])` filters by membership in
the empty id list and returns the empty list — not the records of
`get_all_players()`. -/
theorem get_by_ids_empty_amended (s : Fpl) (b : BootstrapStatic)
    (net : HttpOutcome) (d : String → Except String BootstrapStatic)
    (h : s.bootstrap_static = some b) :
    get_teams s [] net d = (Except.ok b.teams, s)
  ∧ get_all_teams s net d = (Except.ok b.teams, s)
  ∧ get_players s [] net d = (Except.ok [], s)
  ∧ get_all_players s net d = (Except.ok b.elements, s) := by
  refine ⟨?_, ?_, ?_, ?_⟩ <;>
    simp [get_teams, get_all_teams, get_players, get_all_players, h]

/-- Witness: the amended empty-id-list behaviour at the concrete snapshot. -/
theorem get_by_ids_empty_amended_witness :
    demoClient.bootstrap_static = some demoSnapshot
  ∧ (get_teams demoClient [] demoNetDown demoNoDecode
        = (Except.ok demoSnapshot.teams, demoClient)
    ∧ get_all_teams demoClient demoNetDown demoNoDecode
        = (Except.ok demoSnapshot.teams, demoClient)
    ∧ get_players demoClient [] demoNetDown demoNoDecode
        = (Except.ok [], demoClient)
    ∧ get_all_players demoClient demoNetDown demoNoDecode
        = (Except.ok demoSnapshot.elements, demoClient)) :=
  ⟨rfl, get_by_ids_empty_amended demoClient demoSnapshot demoNetDown demoNoDecode rfl⟩

/-- C3 counterexample: when no fixture in the unscoped list carries the
requested id — or the matching fixture has no gameweek reference —
`get_fixture` aborts with a panic (`.expect`), which is not an error result
returned to the caller. -/
theorem get_fixture_missing_id_panics_counterexample :
    (get_fixture Fpl.new 1 demoNetBody1 demoNetBody2 demoDecodeNoFixtures).1
        = FixtureResult.panicked ("Failed when parsing fixtures response.")
  ∧ (get_fixture Fpl.new 1 demoNetBody1 demoNetBody2 demoDecodeEventlessFixture).1
        = FixtureResult.panicked ("Failed when parsing fixtures response.")
  ∧ (get_fixture Fpl.new 1 demoNetBody1 demoNetBody2 demoDecodeNoFixtures).1
        ≠ FixtureResult.err (FplError.mk ("Failed when parsing fixtures response.")) :=
  ⟨by decide, by decide, by decide⟩

/-- C3 amended: when the unscoped all-fixtures fetch succeeds but no fixture
matches `fixture_id`, or the first match carries no gameweek reference,
`get_fixture` panics (aborts via `.expect` with the fixed message) instead of
returning an error result to the caller. -/
theorem get_fixture_unresolved_gameweek_panics (s : Fpl) (fixture_id : Int)
    (net1 net2 : HttpOutcome) (decode : String → Except String Fixtures)
    (afx : Fixtures)
    (hA : fetch fixturesUrl net1 decode = Except.ok afx)
    (hcase : (afx.filter (fun fixture => fixture.id == fixture_id)).head? = none
      ∨ ∃ fx0, (afx.filter (fun fixture => fixture.id == fixture_id)).head? = some fx0
          ∧ fx0.event = none) :
    get_fixture s fixture_id net1 net2 decode
      = (FixtureResult.panicked ("Failed when parsing fixtures response."), s) := by
  rcases hcase with hh | ⟨fx0, hh, hev⟩
  · simp [get_fixture, get_fixtures, hA, hh]
  · simp [get_fixture, get_fixtures, hA, hh, hev]

/-- Witness: the panic behaviour at a concrete empty unscoped fixture list. -/
theorem get_fixture_unresolved_gameweek_panics_witness :
    fetch fixturesUrl demoNetBody1 demoDecodeNoFixtures = Except.ok []
  ∧ (([] : Fixtures).filter (fun fixture => fixture.id == 1)).head? = none
  ∧ get_fixture Fpl.new 1 demoNetBody1 demoNetBody2 demoDecodeNoFixtures
      = (FixtureResult.panicked ("Failed when parsing fixtures response."), Fpl.new) :=
  ⟨by rfl, by rfl,
    get_fixture_unresolved_gameweek_panics Fpl.new 1 demoNetBody1 demoNetBody2
      demoDecodeNoFixtures [] (by rfl) (Or.inl (by rfl))⟩

/-- C5: when the unscoped list's first match for `fixture_id` carries a
gameweek id and the gameweek-scoped fetch succeeds, `get_fixture` returns an
error — never a silent success — when the scoped list has no fixture with
that id, and returns the fixture when it is the single match. -/
theorem get_fixture_vanished_or_resolved (s : Fpl) (fixture_id gw : Int)
    (net1 net2 : HttpOutcome) (decode : String → Except String Fixtures)
    (afx gfx : Fixtures) (fx0 f : Fixture)
    (hA : fetch fixturesUrl net1 decode = Except.ok afx)
    (hfirst : (afx.filter (fun fixture => fixture.id == fixture_id)).head? = some fx0)
    (hev : fx0.event = some gw)
    (hG : fetch (gameweekFixturesUrl gw) net2 decode = Except.ok gfx) :
    (gfx.filter (fun fixture => fixture.id == fixture_id) = []
      → get_fixture s fixture_id net1 net2 decode
          = (FixtureResult.err
              (FplError.mk ("Failed when parsing fixtures response.")), s))
  ∧ (gfx.filter (fun fixture => fixture.id == fixture_id) = [f]
      → get_fixture s fixture_id net1 net2 decode = (FixtureResult.ok f, s)) := by
  constructor
  · intro hempty
    simp [get_fixture, get_fixtures, get_gameweek_fixtures, hA, hfirst, hev, hG,
      hempty]
  · intro hone
    simp [get_fixture, get_fixtures, get_gameweek_fixtures, hA, hfirst, hev, hG,
      hone]

/-- Witness: the two second-hop outcomes at concrete data — a vanishing
fixture produces the error, a stable one is returned. -/
theorem get_fixture_vanished_or_resolved_witness :
    fetch fixturesUrl demoNetBody1 demoDecodeVanishing
      = Except.ok [fixtureWith 1 (some 5)]
  ∧ fetch (gameweekFixturesUrl 5) demoNetBody2 demoDecodeVanishing = Except.ok []
  ∧ fetch (gameweekFixturesUrl 5) demoNetBody2 demoDecodeStable
      = Except.ok [fixtureWith 1 (some 5)]
  ∧ get_fixture Fpl.new 1 demoNetBody1 demoNetBody2 demoDecodeVanishing
      = (FixtureResult.err
          (FplError.mk ("Failed when parsing fixtures response.")), Fpl.new)
  ∧ get_fixture Fpl.new 1 demoNetBody1 demoNetBody2 demoDecodeStable
      = (FixtureResult.ok (fixtureWith 1 (some 5)), Fpl.new) := by
  have hv := get_fixture_vanished_or_resolved Fpl.new 1 5 demoNetBody1 demoNetBody2
    demoDecodeVanishing [fixtureWith 1 (some 5)] [] (fixtureWith 1 (some 5))
    (fixtureWith 1 (some 5)) (by rfl) (by rfl) (by rfl) (by rfl)
  have hs := get_fixture_vanished_or_resolved Fpl.new 1 5 demoNetBody1 demoNetBody2
    demoDecodeStable [fixtureWith 1 (some 5)] [fixtureWith 1 (some 5)]
    (fixtureWith 1 (some 5)) (fixtureWith 1 (some 5)) (by rfl) (by rfl) (by rfl)
    (by rfl)
  exact ⟨by rfl, by rfl, by rfl, hv.1 (by rfl), hs.2 (by decide)⟩

/-- C9 counterexample: the fixture resolver's second-hop failure is the fixed
message `Failed when parsing fixtures response.`, which carries neither the
unscoped nor the gameweek-scoped endpoint (the message is shorter than either
URL), so not every error surfaced by `get_fixture` carries the failing
endpoint and cause text. -/
theorem error_without_endpoint_counterexample :
    (get_fixture Fpl.new 1 demoNetBody1 demoNetBody2 demoDecodeVanishing).1
        = FixtureResult.err (FplError.mk ("Failed when parsing fixtures response."))
  ∧ ¬ containsText ("Failed when parsing fixtures response.") fixturesUrl
  ∧ ¬ containsText ("Failed when parsing fixtures response.") (gameweekFixturesUrl 5) := by
  refine ⟨by decide, ?_, ?_⟩
  · rintro ⟨pre, post, hmsg⟩
    have hl := congrArg String.length hmsg
    rw [String.length_append, String.length_append] at hl
    have h1 : ("Failed when parsing fixtures response.").length = 38 := by decide
    have h2 : 38 < fixturesUrl.length := by decide
    rw [h1] at hl
    omega
  · rintro ⟨pre, post, hmsg⟩
    have hl := congrArg String.length hmsg
    rw [String.length_append, String.length_append] at hl
    have h1 : ("Failed when parsing fixtures response.").length = 38 := by decide
    have h2 : 38 < (gameweekFixturesUrl 5).length := by decide
    rw [h1] at hl
    omega

/-- C9 amended: every failure produced by `fetch` is a message carrying the
failing endpoint and the underlying cause text (the kind is readable only
from the message text — `FplError` has no structured tag), while the fixture
resolver's second-hop failure is a fixed message carrying neither endpoint
nor cause. -/
theorem error_reporting_amended {T : Type} (url e body de : String) (st : Nat)
    (d : String → Except String T) (s : Fpl) (fixture_id gw : Int)
    (net1 net2 : HttpOutcome) (decode : String → Except String Fixtures)
    (afx gfx : Fixtures) (fx0 : Fixture)
    (hst : st ≠ 200) (hdec : d body = Except.error de)
    (hA : fetch fixturesUrl net1 decode = Except.ok afx)
    (hfirst : (afx.filter (fun fixture => fixture.id == fixture_id)).head? = some fx0)
    (hev : fx0.event = some gw)
    (hG : fetch (gameweekFixturesUrl gw) net2 decode = Except.ok gfx)
    (hnone : gfx.filter (fun fixture => fixture.id == fixture_id) = []) :
    (fetch url (HttpOutcome.sendError e) d
        = Except.error (FplError.mk
            ("Failed when making request to: " ++ url ++ " with this error: " ++ e))
      ∧ containsText
          ("Failed when making request to: " ++ url ++ " with this error: " ++ e) url
      ∧ containsText
          ("Failed when making request to: " ++ url ++ " with this error: " ++ e) e)
  ∧ (fetch url (HttpOutcome.response st body) d
        = Except.error (FplError.mk ("Failed when making request to: " ++ url
            ++ " with this status code: " ++ toString st))
      ∧ containsText ("Failed when making request to: " ++ url
            ++ " with this status code: " ++ toString st) url
      ∧ containsText ("Failed when making request to: " ++ url
            ++ " with this status code: " ++ toString st) (toString st))
  ∧ (fetch url (HttpOutcome.response 200 body) d
        = Except.error (FplError.mk
            ("Failed when making request to: " ++ url ++ " with this error: " ++ de))
      ∧ containsText
          ("Failed when making request to: " ++ url ++ " with this error: " ++ de) url
      ∧ containsText
          ("Failed when making request to: " ++ url ++ " with this error: " ++ de) de)
  ∧ get_fixture s fixture_id net1 net2 decode
      = (FixtureResult.err
          (FplError.mk ("Failed when parsing fixtures response.")), s) := by
  refine ⟨⟨rfl, ?_, ?_⟩, ⟨?_, ?_, ?_⟩, ⟨?_, ?_, ?_⟩, ?_⟩
  · exact ⟨"Failed when making request to: ", " with this error: " ++ e,
      by rw [String.append_assoc]⟩
  · exact ⟨"Failed when making request to: " ++ url ++ " with this error: ", "",
      by simp⟩
  · simp [fetch, hst]
  · exact ⟨"Failed when making request to: ", " with this status code: " ++ toString st,
      by rw [String.append_assoc]⟩
  · exact ⟨"Failed when making request to: " ++ url ++ " with this status code: ", "",
      by simp⟩
  · simp [fetch, hdec]
  · exact ⟨"Failed when making request to: ", " with this error: " ++ de,
      by rw [String.append_assoc]⟩
  · exact ⟨"Failed when making request to: " ++ url ++ " with this error: ", "",
      by simp⟩
  · simp [get_fixture, get_fixtures, get_gameweek_fixtures, hA, hfirst, hev, hG,
      hnone]

/-- Witness: the amended error-reporting theorem at concrete inputs. -/
theorem error_reporting_amended_witness :
    ((404 : Nat) ≠ 200)
  ∧ demoDecodeNat ("badbody") = Except.error ("parse failure")
  ∧ fetch fixturesUrl demoNetBody1 demoDecodeVanishing
      = Except.ok [fixtureWith 1 (some 5)]
  ∧ fetch (gameweekFixturesUrl 5) demoNetBody2 demoDecodeVanishing = Except.ok []
  ∧ ((fetch ("u") (HttpOutcome.sendError ("boom")) demoDecodeNat
        = Except.error (FplError.mk
            ("Failed when making request to: " ++ "u" ++ " with this error: "
              ++ "boom"))
      ∧ containsText ("Failed when making request to: " ++ "u"
            ++ " with this error: " ++ "boom") ("u")
      ∧ containsText ("Failed when making request to: " ++ "u"
            ++ " with this error: " ++ "boom") ("boom"))
    ∧ (fetch ("u") (HttpOutcome.response 404 ("badbody")) demoDecodeNat
        = Except.error (FplError.mk ("Failed when making request to: " ++ "u"
            ++ " with this status code: " ++ toString (404 : Nat)))
      ∧ containsText ("Failed when making request to: " ++ "u"
            ++ " with this status code: " ++ toString (404 : Nat)) ("u")
      ∧ containsText ("Failed when making request to: " ++ "u"
            ++ " with this status code: " ++ toString (404 : Nat))
          (toString (404 : Nat)))
    ∧ (fetch ("u") (HttpOutcome.response 200 ("badbody")) demoDecodeNat
        = Except.error (FplError.mk
            ("Failed when making request to: " ++ "u" ++ " with this error: "
              ++ "parse failure"))
      ∧ containsText ("Failed when making request to: " ++ "u"
            ++ " with this error: " ++ "parse failure") ("u")
      ∧ containsText ("Failed when making request to: " ++ "u"
            ++ " with this error: " ++ "parse failure") ("parse failure"))
    ∧ get_fixture Fpl.new 1 demoNetBody1 demoNetBody2 demoDecodeVanishing
        = (FixtureResult.err
            (FplError.mk ("Failed when parsing fixtures response.")), Fpl.new)) :=
  ⟨by decide, by decide, by rfl, by rfl,
    error_reporting_amended ("u") ("boom") ("badbody") ("parse failure") 404
      demoDecodeNat Fpl.new 1 5 demoNetBody1 demoNetBody2 demoDecodeVanishing
      [fixtureWith 1 (some 5)] [] (fixtureWith 1 (some 5)) (by decide) (by decide)
      (by rfl) (by rfl) (by rfl) (by rfl) (by rfl)⟩

end FplRs
